import Mathlib

/-
Verification of the fiber-handle layer of util/fibers/fibers.h (helio).

The header defines the user-facing `Fiber` handle (a movable wrapper around
an intrusive pointer to a Fiber Control Block), the `ThisFiber` free
functions operating on the thread's active fiber, and the scoped guards
`PrintLocalsCallback` and `FiberAtomicGuard`.  Pure pointer-level logic
(IsJoinable, IsActive, IsLocal, get_id, the move constructor, the stack
allocator selection in the Opts constructor) is embedded directly from the
header.  Operations whose bodies live in fibers.cc / fiber_interface.h
(Join, Detach, operator=(Fiber&&), WaitUntil, EnterFiberAtomicSection,
LeaveFiberAtomicSection, SetPrintStacktraceCb, the thread-local
FiberActive pointer) are modelled from the specification, and each such
definition says so in its doc comment.
-/

namespace HelioFibers

/-- Run state of one fiber, spec section 3: `run_state` is one of
Created, Runnable, Running, Waiting, Terminated. -/
inductive RunState where
  | Created
  | Runnable
  | Running
  | Waiting
  | Terminated
deriving DecidableEq, Repr

/-- Join state of one fiber, spec section 3: `join_state` is one of
Joinable, Joined, Detached, independent of `run_state`. -/
inductive JoinState where
  | Joinable
  | Joined
  | Detached
deriving DecidableEq, Repr

/-- Fiber Control Block: the scheduler-visible record for one fiber.
`id` models the FCB's address (nonzero for a live FCB, 0 is the null
pointer), `sched` the owning scheduler (spec: fixed at creation), and
`print_cb` the optional print-stacktrace callback (callbacks modelled as
opaque numeric tokens). -/
structure FCB where
  id : Nat
  sched : Nat
  run_state : RunState
  join_state : JoinState
  print_cb : Option Nat
deriving DecidableEq, Repr

/-- The `Fiber` handle: `boost::intrusive_ptr<FiberInterface> impl_`,
either null (`none`) or a reference to an FCB (fibers.h line 116). -/
structure FiberHandle where
  impl : Option FCB
deriving DecidableEq, Repr

/-- The raw pointer value of `impl_.get()`: the null pointer is 0, a live
FCB's pointer is its (nonzero) address. -/
def ptrOf : Option FCB → Nat
  | none => 0
  | some f => f.id

/-- `Fiber()`: the default constructor leaves `impl_` null (fibers.h line 26). -/
def defaultHandle : FiberHandle := ⟨none⟩

/-- `Fiber::get_id`: `reinterpret_cast<ID>(impl_.get())` (fibers.h lines 86-88). -/
def get_id (h : FiberHandle) : Nat := ptrOf h.impl

/-- `Fiber::IsJoinable`: `nullptr != impl_` (fibers.h lines 90-92). -/
def IsJoinable (h : FiberHandle) : Bool := h.impl.isSome

/-- Per-carrier-thread state visible to the handle observers: `active t`
is the thread-local pointer read by `detail::FiberActive()` on carrier
thread `t`.  Modelled from the spec (sections 3 and 9): the Scheduler of
each carrier thread keeps a pointer to the currently Running FCB, exposed
through a thread-local active-fiber lookup. -/
structure World where
  active : Nat → Option FCB

/-- `detail::FiberActive()` as called from carrier thread `t`.  Modelled
from the spec: FiberActive is declared in fiber_interface.h (absent from
src); the spec describes it as the calling thread's thread-local pointer
to the currently active fiber. -/
def FiberActive (w : World) (t : Nat) : Option FCB := w.active t

/-- `Fiber::IsActive`: `impl_.get() == detail::FiberActive()` (fibers.h
lines 106-109), evaluated from carrier thread `t`. -/
def IsActive (h : FiberHandle) (t : Nat) (w : World) : Bool :=
  ptrOf h.impl == ptrOf (FiberActive w t)

/-- The claim C2 reads the spec's words: the handle's FCB is the FCB
currently in the Running state on that FCB's owning Scheduler (i.e. the
owning scheduler's active pointer designates this FCB).  This definition
follows the spec's words, to be compared with `IsActive` from the source. -/
def specIsActive (h : FiberHandle) (w : World) : Bool :=
  match h.impl with
  | none => false
  | some f => ptrOf h.impl == ptrOf (w.active f.sched)

/-- `Fiber::IsLocal`: `impl_->scheduler() == detail::FiberActive()->scheduler()`
(fibers.h lines 95-97).  Each `->scheduler()` dereference of a possibly
null pointer is made explicit: the result is `none` exactly when a null
pointer would be dereferenced. -/
def derefScheduler : Option FCB → Option Nat
  | none => none
  | some f => some f.sched

def IsLocal (h : FiberHandle) (t : Nat) (w : World) : Option Bool :=
  match derefScheduler h.impl, derefScheduler (FiberActive w t) with
  | some a, some b => some (a == b)
  | _, _ => none

/-- `Fiber::swap`: `impl_.swap(other.impl_)` (fibers.h lines 82-84). -/
def swapHandles (a b : FiberHandle) : FiberHandle × FiberHandle :=
  (⟨b.impl⟩, ⟨a.impl⟩)

/-- `Fiber(Fiber&& other)` : `impl_{}` then `swap(other)` (fibers.h lines
76-78).  Returns (the new handle, the moved-from source). -/
def moveConstruct (other : FiberHandle) : FiberHandle × FiberHandle :=
  swapHandles ⟨none⟩ other

/-- Modelled from the spec: `Fiber::operator=(Fiber&&)` is declared at
fibers.h line 80 but defined in fibers.cc, absent from src.  Per the spec,
move assignment transfers the FCB reference by exchanging it with the
destination, whose previous value must not be joinable (overwriting a
still-joinable handle is a section-7 contract violation).  Returns
(the assigned-to handle, the moved-from source). -/
def moveAssign (dest other : FiberHandle) : FiberHandle × FiberHandle :=
  swapHandles dest other

/-- Modelled from the spec: `Fiber::Join` and `Fiber::Detach` (declared at
fibers.h lines 99 and 104, defined in fibers.cc, absent from src) both end
by releasing the handle's FCB reference, leaving the handle empty. -/
def releasedHandle : FiberHandle := ⟨none⟩

/-- `ThisFiber::PrintLocalsCallback` constructor: calls
`FiberActive()->SetPrintStacktraceCb(fn)` on the active FCB (fibers.h
lines 217-219).  `SetPrintStacktraceCb` itself is declared in
fiber_interface.h, absent from src; modelled from the spec: constructing
the guard stores the callback in the active FCB. -/
def printLocalsGuardCtor (fn : Nat) (active : FCB) : FCB :=
  { active with print_cb := some fn }

/-- `ThisFiber::PrintLocalsCallback` destructor: calls
`FiberActive()->SetPrintStacktraceCb(nullptr)` on the active FCB
(fibers.h lines 221-223); modelled from the spec: destruction clears the
callback, unconditionally, whatever the FCB currently holds. -/
def printLocalsGuardDtor (active : FCB) : FCB :=
  { active with print_cb := none }

/-- Modelled from the spec: `detail::EnterFiberAtomicSection` (declared in
fiber_interface.h, absent from src) increments the carrier thread's
atomic-section depth counter.  Called by the `FiberAtomicGuard`
constructor (fibers.h lines 232-234). -/
def EnterFiberAtomicSection (depth : Nat) : Nat := depth + 1

/-- Modelled from the spec: `detail::LeaveFiberAtomicSection` (declared in
fiber_interface.h, absent from src) decrements the carrier thread's
atomic-section depth counter.  Called by the `FiberAtomicGuard`
destructor (fibers.h lines 236-238). -/
def LeaveFiberAtomicSection (depth : Nat) : Nat := depth - 1

/-- Constructing N nested `FiberAtomicGuard`s: N constructor calls, each
entering the atomic section. -/
def enterN (n : Nat) (depth : Nat) : Nat :=
  Nat.iterate EnterFiberAtomicSection n depth

/-- Destroying N nested `FiberAtomicGuard`s in reverse order: N destructor
calls, each leaving the atomic section. -/
def leaveN (n : Nat) (depth : Nat) : Nat :=
  Nat.iterate LeaveFiberAtomicSection n depth

/-- The carrier thread is preemptible when the atomic-section depth
counter is zero (spec section 4.5: while depth > 0 the scheduler must not
involuntarily suspend). -/
def preemptible (depth : Nat) : Bool := depth == 0

/-- What the Opts-based `Fiber` constructor requests from the stack layer:
either a `FixedStackAllocator` over the installed process-wide resource,
or `boost::context::fixedsize_stack` (the platform default allocator). -/
inductive StackSource where
  | fromResource (res : Nat)
  | platformDefault
deriving DecidableEq, Repr

/-- A stack acquisition request: its source and the number of bytes
requested. -/
structure StackAllocation where
  source : StackSource
  size : Nat
deriving DecidableEq, Repr

/-- `FixedStackAllocator(detail::default_stack_resource, opts.stack_size)`:
a fixed-size allocation of `stack_size` bytes from memory resource `res`
(the allocator type itself lives outside src; modelled from the spec:
Allocate acquires a contiguous region of the requested size from the
installed resource). -/
def FixedStackAllocator (res : Nat) (stack_size : Nat) : StackAllocation :=
  ⟨StackSource.fromResource res, stack_size⟩

/-- `boost::context::fixedsize_stack(opts.stack_size)`: a fixed-size
allocation of `stack_size` bytes from the platform default allocator
(modelled from the spec: with no resource installed, Allocate falls back
to a fixed-size allocation of the requested size from the platform
default allocator). -/
def fixedsize_stack (stack_size : Nat) : StackAllocation :=
  ⟨StackSource.platformDefault, stack_size⟩

/-- The stack-relevant creation options of `Fiber::Opts` (fibers.h lines
19-24): `stack_size` defaults to 64 KiB. -/
structure Opts where
  stack_size : Nat := 64 * 1024
deriving DecidableEq, Repr

/-- The stack acquisition performed by the Opts-based constructor
`Fiber(const Opts&, Fn&&, Arg&&...)` (fibers.h lines 57-69):
`detail::default_stack_resource` (the process-wide resource installed by
`SetDefaultStackResource`, or null if never installed) selects between
`FixedStackAllocator(resource, opts.stack_size)` and
`boost::context::fixedsize_stack(opts.stack_size)`. -/
def fiberStackAllocation (default_stack_resource : Option Nat) (opts : Opts) :
    StackAllocation :=
  match default_stack_resource with
  | some r => FixedStackAllocator r opts.stack_size
  | none => fixedsize_stack opts.stack_size

/-- The state of the active fiber as seen by the sleep operations: its run
state, its wake deadline (if Waiting on a timer), and the current reading
of the steady clock (time modelled as Nat ticks). -/
structure ActiveFiber where
  run_state : RunState
  deadline : Option Nat
  now : Nat
deriving DecidableEq, Repr

/-- Modelled from the spec: `FiberInterface::WaitUntil(tp)` (declared in
fiber_interface.h, absent from src) transitions the active fiber
Running → Waiting with wake deadline `tp`. -/
def WaitUntil (tp : Nat) (f : ActiveFiber) : ActiveFiber :=
  { f with run_state := RunState.Waiting, deadline := some tp }

/-- `ThisFiber::SleepUntil(tp)`: `FiberActive()->WaitUntil(tp)` (fibers.h
lines 175-178). -/
def SleepUntil (tp : Nat) (f : ActiveFiber) : ActiveFiber := WaitUntil tp f

/-- `ThisFiber::SleepFor(d)`: `SleepUntil(steady_clock::now() + d)`
(fibers.h lines 188-191); `f.now` is the clock reading at the call. -/
def SleepFor (d : Nat) (f : ActiveFiber) : ActiveFiber :=
  SleepUntil (f.now + d) f

/-- Modelled from the spec: the scheduler's wake step at time `t` — a
fiber Waiting on a deadline becomes Runnable only when the deadline has
elapsed (spec: resumes Runnable no earlier than the deadline). -/
def wakeAt (t : Nat) (f : ActiveFiber) : ActiveFiber :=
  match f.deadline with
  | some tp =>
      if f.run_state = RunState.Waiting ∧ tp ≤ t then
        { f with run_state := RunState.Runnable, deadline := none, now := t }
      else
        { f with now := t }
  | none => { f with now := t }

/-- Modelled from the spec: the state touched by `Fiber::Join` (declared
at fibers.h line 99, defined in fibers.cc, absent from src): the target's
run and join state, whether the handle still holds its reference, whether
the calling fiber is suspended on the target's completion, and how many
times the caller has been woken. -/
structure JoinScenario where
  target_run : RunState
  target_join : JoinState
  handle_ref : Bool
  caller_suspended : Bool
  caller_wakeups : Nat
deriving DecidableEq, Repr

/-- Modelled from the spec: the synchronous part of `Fiber::Join` on a
Joinable target.  If the target has already Terminated, the join completes
at once: `join_state` becomes Joined and the handle's reference is
released, without suspending the caller.  Otherwise the calling fiber
suspends on the target's completion. -/
def joinCall (s : JoinScenario) : JoinScenario :=
  if s.target_run = RunState.Terminated then
    { s with target_join := JoinState.Joined, handle_ref := false }
  else
    { s with caller_suspended := true }

/-- Modelled from the spec: the target's termination transition.  The
target's `run_state` becomes Terminated (absorbing, entered exactly once)
and all joiners blocked on its completion are woken at that transition;
a suspended joiner is woken (once), its join completes: `join_state`
becomes Joined and the handle's reference is released. -/
def targetTerminates (s : JoinScenario) : JoinScenario :=
  { s with
    target_run := RunState.Terminated,
    caller_suspended := false,
    caller_wakeups :=
      if s.caller_suspended then s.caller_wakeups + 1 else s.caller_wakeups,
    target_join :=
      if s.caller_suspended then JoinState.Joined else s.target_join,
    handle_ref := if s.caller_suspended then false else s.handle_ref }

/-- A concrete FCB owned by scheduler 0 and Running there. -/
def fcbA : FCB :=
  { id := 1, sched := 0, run_state := RunState.Running,
    join_state := JoinState.Joinable, print_cb := none }

/-- A concrete FCB owned by scheduler 1 and Running there. -/
def fcbB : FCB :=
  { id := 2, sched := 1, run_state := RunState.Running,
    join_state := JoinState.Joinable, print_cb := none }

/-- A concrete two-thread world: carrier thread 0 is running `fcbA`,
carrier thread 1 is running `fcbB`. -/
def twoThreadWorld : World :=
  ⟨fun t => if t = 0 then some fcbA else some fcbB⟩

end HelioFibers

namespace HelioFibers

/-- C5: For every Fiber handle, IsJoinable() returns true iff the handle
holds a live FCB reference, irrespective of the target's run_state: it is
invariant under any change of the target's run state, in particular it
stays true after the target terminates; it becomes false once the handle
is joined, detached, or moved from. -/
theorem IsJoinable_iff_live_ref (h : FiberHandle) :
    (IsJoinable h = true ↔ h.impl ≠ none) ∧
    (∀ rs : RunState,
      IsJoinable ⟨h.impl.map (fun f => { f with run_state := rs })⟩ = IsJoinable h) ∧
    IsJoinable releasedHandle = false ∧
    IsJoinable (moveConstruct h).2 = false := by
  refine ⟨?_, ?_, rfl, rfl⟩
  · cases h with
    | mk impl => cases impl <;> simp [IsJoinable]
  · intro rs
    cases h with
    | mk impl => cases impl <;> simp [IsJoinable]

/-- C1: Join on a handle holding a Joinable FCB: if the target has already
Terminated, Join completes immediately without suspending the caller, sets
join_state to Joined, and releases the handle's reference; if the target
has not Terminated, Join suspends the calling fiber, and at the target's
termination transition the caller is woken exactly once, the target's
run_state is Terminated, join_state is Joined, and the handle's reference
is released. -/
theorem Join_semantics (s : JoinScenario)
    (hj : s.target_join = JoinState.Joinable)
    (hr : s.handle_ref = true)
    (hs : s.caller_suspended = false) :
    (s.target_run = RunState.Terminated →
        (joinCall s).caller_suspended = false ∧
        (joinCall s).caller_wakeups = s.caller_wakeups ∧
        (joinCall s).target_join = JoinState.Joined ∧
        (joinCall s).handle_ref = false) ∧
    (s.target_run ≠ RunState.Terminated →
        (joinCall s).caller_suspended = true ∧
        (targetTerminates (joinCall s)).target_run = RunState.Terminated ∧
        (targetTerminates (joinCall s)).caller_suspended = false ∧
        (targetTerminates (joinCall s)).caller_wakeups = s.caller_wakeups + 1 ∧
        (targetTerminates (joinCall s)).target_join = JoinState.Joined ∧
        (targetTerminates (joinCall s)).handle_ref = false) := by
  constructor
  · intro ht
    simp [joinCall, ht, hs]
  · intro ht
    simp [joinCall, targetTerminates, ht]

/-- C1 witness: a concrete join of a still-Runnable Joinable target — the
caller suspends, and the termination transition wakes it exactly once and
completes the join. -/
theorem Join_semantics_witness :
    (joinCall ⟨RunState.Runnable, JoinState.Joinable, true, false, 0⟩).caller_suspended
      = true ∧
    (targetTerminates
      (joinCall ⟨RunState.Runnable, JoinState.Joinable, true, false, 0⟩)).caller_wakeups
      = 0 + 1 :=
  have h :=
    (Join_semantics ⟨RunState.Runnable, JoinState.Joinable, true, false, 0⟩
      rfl rfl rfl).2 (by decide)
  ⟨h.1, h.2.2.2.1⟩

/-- C2 counterexample: the handle of `fcbA`, which IS the currently
Running FCB on its owning Scheduler (thread 0), queried from carrier
thread 1: the claim's reading is true, yet IsActive (which compares
against the CALLING thread's active fiber, fibers.h line 108) returns
false. -/
theorem IsActive_cross_thread_cex :
    specIsActive ⟨some fcbA⟩ twoThreadWorld = true ∧
    IsActive ⟨some fcbA⟩ 1 twoThreadWorld = false := by
  exact ⟨rfl, rfl⟩

/-- C2 (amended): IsActive returns true iff the handle's FCB is the
currently active FCB on the CALLING carrier thread; when called from the
FCB's owning scheduler's thread this coincides with being the currently
Running FCB on its owning Scheduler. -/
theorem IsActive_eq_running_on_owner_when_local (h : FiberHandle) (f : FCB)
    (w : World) (himpl : h.impl = some f) :
    IsActive h f.sched w = specIsActive h w := by
  cases h with
  | mk impl =>
    cases himpl
    rfl

/-- C2 amended-claim witness at a concrete handle, world and thread. -/
theorem IsActive_eq_running_on_owner_when_local_witness :
    IsActive ⟨some fcbA⟩ fcbA.sched twoThreadWorld =
      specIsActive ⟨some fcbA⟩ twoThreadWorld :=
  IsActive_eq_running_on_owner_when_local ⟨some fcbA⟩ fcbA twoThreadWorld rfl

/-- C3: SleepFor(d) is SleepUntil(now + d): the two produce identical
states, both transition the active fiber Running → Waiting with wake
deadline now + d, and a scheduler wake step can make the fiber Runnable
only at a time no earlier than that deadline. -/
theorem SleepFor_eq_SleepUntil (d : Nat) (f : ActiveFiber) :
    SleepFor d f = SleepUntil (f.now + d) f ∧
    (SleepFor d f).run_state = RunState.Waiting ∧
    (SleepFor d f).deadline = some (f.now + d) ∧
    ∀ t : Nat,
      (wakeAt t (SleepFor d f)).run_state = RunState.Runnable → f.now + d ≤ t := by
  refine ⟨rfl, rfl, rfl, ?_⟩
  intro t hw
  by_cases hle : f.now + d ≤ t
  · exact hle
  · exfalso
    simp [SleepFor, SleepUntil, WaitUntil, wakeAt, hle] at hw

/-- C3 witness: a fiber sleeping 4 ticks at time 3 is woken at time 7,
which is no earlier than its deadline. -/
theorem SleepFor_eq_SleepUntil_witness : 3 + 4 ≤ 7 :=
  (SleepFor_eq_SleepUntil 4 ⟨RunState.Running, none, 3⟩).2.2.2 7 (by decide)

/-- Entering the atomic section n times adds n to the depth counter. -/
theorem enterN_eq (n : Nat) : ∀ d : Nat, enterN n d = d + n := by
  induction n with
  | zero => intro d; rfl
  | succ k ih =>
      intro d
      have hstep : enterN (k + 1) d = enterN k (d + 1) := rfl
      rw [hstep, ih]
      omega

/-- Leaving the atomic section n times subtracts n from the depth counter. -/
theorem leaveN_eq (n : Nat) : ∀ d : Nat, leaveN n d = d - n := by
  induction n with
  | zero => intro d; rfl
  | succ k ih =>
      intro d
      have hstep : leaveN (k + 1) d = leaveN k (d - 1) := rfl
      rw [hstep, ih]
      omega

/-- C4: each FiberAtomicGuard construction increments the carrier
thread's atomic-section depth counter by one and each destruction
decrements it by one; N nested guards destroyed in reverse order restore
the counter to its original value, and a thread that started at depth 0
(preemptible) is preemptible again. -/
theorem atomic_guard_nesting (n depth : Nat) :
    EnterFiberAtomicSection depth = depth + 1 ∧
    LeaveFiberAtomicSection (depth + 1) = depth ∧
    leaveN n (enterN n depth) = depth ∧
    preemptible (leaveN n (enterN n 0)) = true := by
  refine ⟨rfl, rfl, ?_, ?_⟩
  · rw [enterN_eq, leaveN_eq]; omega
  · rw [enterN_eq, leaveN_eq]
    simp [preemptible]

/-- C6: on a non-empty handle, with an active fiber present on the
calling carrier thread, IsLocal evaluates without dereferencing a null
pointer (the result is `some`) and returns true iff the handle's owning
scheduler equals the active fiber's scheduler. -/
theorem IsLocal_defined_and_correct (f a : FCB) (t : Nat) (w : World)
    (ha : w.active t = some a) :
    IsLocal ⟨some f⟩ t w = some (f.sched == a.sched) := by
  simp [IsLocal, FiberActive, derefScheduler, ha]

/-- C6 witness: querying `fcbB`'s handle from thread 0 (whose active
fiber is `fcbA`) yields a defined, false answer. -/
theorem IsLocal_defined_and_correct_witness :
    IsLocal ⟨some fcbB⟩ 0 twoThreadWorld = some (fcbB.sched == fcbA.sched) :=
  IsLocal_defined_and_correct fcbB fcbA 0 twoThreadWorld rfl

/-- C7: the Opts-based constructor allocates the fiber's stack from the
installed process-wide resource when one was set via
SetDefaultStackResource, and otherwise as a fixed-size allocation from
the platform default allocator; in both cases the stack has exactly
opts.stack_size bytes. -/
theorem fiber_stack_allocation_honours_request (r : Nat) (opts : Opts) :
    fiberStackAllocation (some r) opts = FixedStackAllocator r opts.stack_size ∧
    (fiberStackAllocation (some r) opts).size = opts.stack_size ∧
    (fiberStackAllocation (some r) opts).source = StackSource.fromResource r ∧
    fiberStackAllocation none opts = fixedsize_stack opts.stack_size ∧
    (fiberStackAllocation none opts).size = opts.stack_size ∧
    (fiberStackAllocation none opts).source = StackSource.platformDefault :=
  ⟨rfl, rfl, rfl, rfl, rfl, rfl⟩

/-- C8: move construction and (on a non-joinable destination, as the
contract requires) move assignment transfer the FCB reference: the
destination ends up holding exactly the reference the source held, and
the moved-from source is empty, with IsJoinable false. -/
theorem move_transfers_reference (other dest : FiberHandle)
    (hdest : dest.impl = none) :
    (moveConstruct other).1.impl = other.impl ∧
    (moveConstruct other).2.impl = none ∧
    IsJoinable (moveConstruct other).2 = false ∧
    (moveAssign dest other).1.impl = other.impl ∧
    (moveAssign dest other).2.impl = none ∧
    IsJoinable (moveAssign dest other).2 = false := by
  refine ⟨rfl, rfl, rfl, rfl, ?_, ?_⟩ <;>
    simp [moveAssign, swapHandles, hdest, IsJoinable]

/-- C8 witness: moving the handle of `fcbA` into an empty destination. -/
theorem move_transfers_reference_witness :
    (moveConstruct ⟨some fcbA⟩).1.impl = some fcbA ∧
    IsJoinable (moveAssign defaultHandle ⟨some fcbA⟩).2 = false :=
  have h := move_transfers_reference ⟨some fcbA⟩ defaultHandle rfl
  ⟨h.1, h.2.2.2.2.2⟩

/-- C9: constructing the PrintLocalsCallback guard stores the supplied
callback in the active FCB, and destroying it sets the FCB's
print-stacktrace callback to null unconditionally — for every FCB state,
whatever callback it currently holds — so after the guard's lifetime the
FCB holds no callback. -/
theorem print_locals_guard_scoped (fn : Nat) (f g : FCB) :
    (printLocalsGuardCtor fn f).print_cb = some fn ∧
    (printLocalsGuardDtor g).print_cb = none ∧
    (printLocalsGuardDtor (printLocalsGuardCtor fn f)).print_cb = none :=
  ⟨rfl, rfl, rfl⟩

/-- C10: on an empty handle (default-constructed, or the moved-from side
of a move, which is the same empty state): get_id returns the null
identity 0, IsJoinable returns false, and IsActive returns false whenever
a live fiber (nonzero address) is active on the calling thread. -/
theorem empty_handle_observers (h : FiberHandle) (t : Nat) (w : World)
    (a : FCB) (hact : w.active t = some a) (hid : a.id ≠ 0) :
    get_id defaultHandle = 0 ∧
    IsJoinable defaultHandle = false ∧
    (moveConstruct h).2 = defaultHandle ∧
    IsActive defaultHandle t w = false := by
  refine ⟨rfl, rfl, rfl, ?_⟩
  have hne : (0 : Nat) ≠ a.id := fun hh => hid hh.symm
  simp [IsActive, defaultHandle, FiberActive, hact, ptrOf, hne]

/-- C10 witness: the empty handle observed from thread 0 of the concrete
two-thread world, where `fcbA` (address 1) is active. -/
theorem empty_handle_observers_witness :
    get_id defaultHandle = 0 ∧ IsActive defaultHandle 0 twoThreadWorld = false :=
  have h :=
    empty_handle_observers ⟨some fcbB⟩ 0 twoThreadWorld fcbA rfl (by decide)
  ⟨h.1, h.2.2.2⟩

end HelioFibers
